import Mathlib

/-!
Shallow embedding of the order/cart pricing and payment-status
reconciliation flow of the dinesh-kapur storefront backend.

Monetary amounts are modelled as rationals (ℚ); JavaScript identifiers,
sizes and status strings are `String`.  JavaScript's falsy coercions
(`x || d`, `!x`) are embedded explicitly: an absent/null field is `none`,
an empty string and the number 0 are falsy.
-/

namespace DineshKapur

/-- A catalog product (the fields `calculateCartTotals` touches).
`price` is the size → amount mapping, embedded as an association list;
key lookup mirrors the JavaScript property access `product.price[size]`. -/
structure Product where
  id : String
  title : String
  price : List (String × ℚ)
deriving Repr, DecidableEq

/-- A request-scoped cart line item.  `quantity := none` models an absent or
null quantity field. -/
structure CartItem where
  product_id : String
  size : String
  quantity : Option ℚ
  custom_artwork : Option String
deriving Repr, DecidableEq

/-- A line item enriched by the pricing calculator (lines 293–301). -/
structure EnrichedItem where
  product_id : String
  title : String
  size : String
  quantity : ℚ
  unit_price : ℚ
  line_total : ℚ
  custom_artwork : Option String
deriving Repr, DecidableEq

/-- Offer conditions object; `minSubtotal := none` models an absent key. -/
structure OfferConditions where
  minSubtotal : Option ℚ
deriving Repr, DecidableEq

/-- A discount offer.  `active := none` models an absent `active` field
(which the code treats as active, via `offer.active !== false`). -/
structure Offer where
  id : String
  label : String
  type : String
  value : Option ℚ
  active : Option Bool
  conditions : Option OfferConditions
deriving Repr, DecidableEq

/-- Errors thrown by `calculateCartTotals` (lines 284 and 287). -/
inductive CalcError where
  | invalidProduct (productId : String)
  | invalidSize (productId : String)
deriving Repr, DecidableEq

/-- The value returned by `calculateCartTotals` (lines 319–326). -/
structure CartTotals where
  subtotal : ℚ
  discount : ℚ
  shipping : ℚ
  total : ℚ
  items : List EnrichedItem
  offers : List Offer
deriving Repr, DecidableEq

/-- `Number(item.quantity || 1)` (lines 290, 297): an absent, null or zero
quantity is coerced to 1. -/
def normQty : Option ℚ → ℚ
  | none => 1
  | some v => if v = 0 then 1 else v

/-- The JavaScript property access `product.price[item.size]`. -/
def priceFor (p : Product) (size : String) : Option ℚ :=
  p.price.lookup size

/-- One iteration of the item loop (lines 281–301): resolve the product by
id (`Invalid product` if absent), then the price for the size.  The source
guard is `!product.price[item.size]`, so a missing key and a zero price are
both rejected as `Invalid size`. -/
def enrichItem (products : List Product) (item : CartItem) :
    Except CalcError EnrichedItem :=
  match products.find? (fun p => p.id == item.product_id) with
  | none => .error (.invalidProduct item.product_id)
  | some product =>
    match priceFor product item.size with
    | none => .error (.invalidSize item.product_id)
    | some unitPrice =>
      if unitPrice = 0 then .error (.invalidSize item.product_id)
      else
        .ok { product_id := product.id
              title := product.title
              size := item.size
              quantity := normQty item.quantity
              unit_price := unitPrice
              line_total := unitPrice * normQty item.quantity
              custom_artwork := item.custom_artwork }

/-- The item loop of `calculateCartTotals`: accumulates the running subtotal
and pushes enriched items, aborting on the first error. -/
def processItems (products : List Product) (subtotal : ℚ)
    (acc : List EnrichedItem) :
    List CartItem → Except CalcError (ℚ × List EnrichedItem)
  | [] => .ok (subtotal, acc)
  | item :: rest =>
    match enrichItem products item with
    | .error e => .error e
    | .ok e => processItems products (subtotal + e.line_total) (acc ++ [e]) rest

/-- `offer.active !== false` (line 305). -/
def offerIsActive (o : Offer) : Bool :=
  o.active != some false

/-- `offer?.conditions?.minSubtotal || 0` (lines 308, 311). -/
def offerMinSub (o : Offer) : ℚ :=
  match o.conditions with
  | none => 0
  | some c => c.minSubtotal.getD 0

/-- `Number(offer.value || 0)` (lines 309, 312). -/
def offerValue (o : Offer) : ℚ :=
  o.value.getD 0

/-- The discount contribution of one offer in the loop over active offers
(lines 307–314): two independent `if`s, one for each offer type. -/
def offerDiscount (subtotal : ℚ) (o : Offer) : ℚ :=
  (if o.type == "percentage" ∧ offerMinSub o ≤ subtotal then
      subtotal * offerValue o / 100
    else 0)
  + (if o.type == "flat" ∧ offerMinSub o ≤ subtotal then offerValue o else 0)

/-- The offer loop: `discount` accumulated over the active offers. -/
def computeDiscount (subtotal : ℚ) : List Offer → ℚ
  | [] => 0
  | o :: rest => offerDiscount subtotal o + computeDiscount subtotal rest

/-- Spec-side predicate: an offer that the spec counts as applied — active
and with its `minSubtotal` condition met by the subtotal. -/
def specQualifies (subtotal : ℚ) (o : Offer) : Bool :=
  offerIsActive o && decide (offerMinSub o ≤ subtotal)

/-- Spec-side contribution of one qualifying offer: percentage offers add
`subtotal × value / 100`, flat offers add `value`. -/
def specOfferContribution (subtotal : ℚ) (o : Offer) : ℚ :=
  if o.type == "percentage" then subtotal * offerValue o / 100
  else if o.type == "flat" then offerValue o
  else 0

/-- Spec-side discount: the additive sum of the contributions of every
qualifying offer (the statement of the claim, to be compared with the
source's `computeDiscount` loop). -/
def specDiscount (subtotal : ℚ) (offers : List Offer) : ℚ :=
  ((offers.filter (specQualifies subtotal)).map
    (specOfferContribution subtotal)).sum

/-- `calculateCartTotals(items, offers)` (lines 276–327).  The products
collection, loaded from flat-file storage in the source, is passed
explicitly.  Shipping is 0 when `subtotal >= 999`, otherwise 79; the total
is clamped at 0.  Note that the returned `offers` field is `activeOffers`:
every active offer, whether or not its `minSubtotal` condition was met. -/
def calculateCartTotals (products : List Product) (items : List CartItem)
    (offers : List Offer) : Except CalcError CartTotals :=
  match processItems products 0 [] items with
  | .error e => .error e
  | .ok (subtotal, enriched) =>
    let activeOffers := offers.filter offerIsActive
    let discount := computeDiscount subtotal activeOffers
    let shipping : ℚ := if 999 ≤ subtotal then 0 else 79
    let total := max (subtotal - discount + shipping) 0
    .ok { subtotal := subtotal
          discount := discount
          shipping := shipping
          total := total
          items := enriched
          offers := activeOffers }

/-! ### Orders, the admin update route and the Paytm webhook -/

/-- The Paytm webhook body, destructured at line 825:
`const { orderId, resultInfo = {}, txnAmount, txnId } = body`.
`resultStatus` is `resultInfo.resultStatus`; `txnAmountValue` is
`txnAmount?.value` (a string in the provider's wire format). -/
structure WebhookBody where
  orderId : Option String
  resultStatus : Option String
  txnId : Option String
  txnAmountValue : Option String
deriving Repr, DecidableEq

/-- A stored order record (the fields the order-creation, admin-update and
webhook handlers read or write).  `Option` fields are absent until first
set. -/
structure Order where
  id : String
  customer_name : String
  customer_email : String
  customer_phone : String
  ship_line1 : String
  ship_line2 : String
  ship_city : String
  ship_state : String
  ship_pincode : String
  items : List EnrichedItem
  offers_applied : List (String × String × String)
  subtotal : ℚ
  discount : ℚ
  shipping : ℚ
  total : ℚ
  payment_method : String
  payment_status : String
  status : String
  notes : String
  tracking_number : Option String
  paytm_transaction_id : Option String
  paid_amount : Option String
  created_at : String
  updated_at : String
  paytm_response : Option WebhookBody
deriving Repr, DecidableEq

/-- A customer record, deduplicated by email at order creation. -/
structure Customer where
  id : String
  name : String
  email : String
  phone : String
  created_at : String
deriving Repr, DecidableEq

/-- `updateOrder(orderId, updater)` (lines 329–339): find the first order
with the given id, apply the updater in place, save; throw
`Order not found` when absent. Returns the updated order and the saved
collection. -/
def updateOrder : List Order → String → (Order → Order) →
    Except String (Order × List Order)
  | [], _, _ => .error "Order not found"
  | o :: rest, orderId, f =>
    if o.id == orderId then .ok (f o, f o :: rest)
    else
      match updateOrder rest orderId f with
      | .error e => .error e
      | .ok (u, rest') => .ok (u, o :: rest')

/-- JavaScript truthiness on an optional string: `none` (undefined/null)
and the empty string are falsy. -/
def strTruthy : Option String → Bool
  | none => false
  | some s => s != ""

/-- `a || b` on optional strings, with JavaScript falsiness. -/
def strOr (a b : Option String) : Option String :=
  if strTruthy a then a else b

/-- `toLowerCase()` on the provider's result codes: charwise ASCII
lowercasing (extensionally the same as `String.toLower`, stated charwise
so it computes structurally). -/
def strToLower (s : String) : String :=
  ⟨s.data.map Char.toLower⟩

/-- The `statusMap` lookup of the webhook updater (lines 831–835). -/
def statusMap (rs : String) : Option String :=
  if rs == "TXN_SUCCESS" then some "confirmed"
  else if rs == "TXN_FAILURE" then some "failed"
  else if rs == "PENDING" then some "pending"
  else none

/-- The updater the webhook passes to `updateOrder` (lines 830–847):
`status` from `statusMap` falling back to the current status;
`payment_status` is `"paid"` for `TXN_SUCCESS`, otherwise the lowercased
result code, falling back to the current value when falsy;
`paytm_transaction_id` is overwritten with `txnId`; `paid_amount` keeps the
current value when `txnAmount?.value` is falsy; the full provider body is
stored in `paytm_response`. -/
def webhookUpdater (body : WebhookBody) (now : String) (current : Order) :
    Order :=
  let paymentStatus : Option String :=
    if body.resultStatus == some "TXN_SUCCESS" then some "paid"
    else body.resultStatus.map strToLower
  { current with
    status := ((body.resultStatus.bind statusMap).getD current.status)
    payment_status := (strOr paymentStatus (some current.payment_status)).getD
      current.payment_status
    paytm_transaction_id := body.txnId
    paid_amount := strOr body.txnAmountValue current.paid_amount
    updated_at := now
    paytm_response := some body }

/-- The webhook handler's possible responses: 400 `Invalid signature`,
400 `Missing orderId`, 500 on an `updateOrder` throw, 200 with the updated
order. -/
inductive WebhookResp where
  | invalidSignature
  | missingOrderId
  | serverError (msg : String)
  | success (order : Order)
deriving Repr, DecidableEq

/-- `POST /payments/paytm/webhook` (lines 798–854).  `signature` is the
value coalesced from the headers and body (lines 803–807); `sigValid` is
the outcome of the external `PaytmChecksum.verifySignature` call.  A falsy
signature, an unconfigured merchant key, or a failed verification all
return `Invalid signature` without touching the orders collection. -/
def paytmWebhook (merchantKey : String) (sigValid : Bool)
    (signature : Option String) (body : WebhookBody) (now : String)
    (orders : List Order) : WebhookResp × List Order :=
  if !strTruthy signature || merchantKey == "" then (.invalidSignature, orders)
  else if !sigValid then (.invalidSignature, orders)
  else if !strTruthy body.orderId then (.missingOrderId, orders)
  else
    match updateOrder orders (body.orderId.getD "") (webhookUpdater body now) with
    | .error e => (.serverError e, orders)
    | .ok (o, orders') => (.success o, orders')

/-- An admin update payload for `PUT /api/orders/:id`: each field present in
the request body overwrites the stored field in the spread
`{ ...current, ...updates, updated_at }` (lines 751–755). -/
structure OrderPatch where
  id : Option String
  status : Option String
  payment_status : Option String
  notes : Option String
  tracking_number : Option String
deriving Repr, DecidableEq

/-- The merge the admin update route performs: caller-supplied fields
overwrite current ones (the `id` field included, since the spread is not
followed by an id restoration), then `updated_at` is stamped. -/
def mergeOrder (current : Order) (p : OrderPatch) (now : String) : Order :=
  { current with
    id := p.id.getD current.id
    status := p.status.getD current.status
    payment_status := p.payment_status.getD current.payment_status
    notes := p.notes.getD current.notes
    tracking_number :=
      match p.tracking_number with
      | none => current.tracking_number
      | some t => some t
    updated_at := now }

/-- `PUT /api/orders/:id` (lines 748–761): delegate to `updateOrder` with
the merge updater. -/
def putOrderById (orders : List Order) (orderId : String) (p : OrderPatch)
    (now : String) : Except String (Order × List Order) :=
  updateOrder orders orderId (fun cur => mergeOrder cur p now)

/-! ### Order creation (`POST /api/orders`, lines 614–717) -/

/-- The checkout request's `customer` object; a missing field is the empty
string (JavaScript's `!customer.firstName` is true for both). -/
structure CustomerInfo where
  firstName : String
  lastName : String
  email : String
  phone : String
deriving Repr, DecidableEq

/-- The checkout request's `shippingAddress` object; `line2` is optional
(`shippingAddress.line2 || ''`). -/
structure ShippingInfo where
  line1 : String
  line2 : Option String
  city : String
  state : String
  pincode : String
deriving Repr, DecidableEq

/-- The body of `POST /api/orders` (line 616). -/
structure OrderRequest where
  customer : Option CustomerInfo
  shippingAddress : Option ShippingInfo
  paymentMethod : Option String
  items : List CartItem
  notes : Option String
deriving Repr, DecidableEq

/-- The persisted collections the order-creation handler can write. -/
structure StoreState where
  orders : List Order
  customers : List Customer
deriving Repr, DecidableEq

/-- Responses of the order-creation handler: the three 400 validation
branches, the 500 catch-all (which the `calculateCartTotals` throw lands
in), the 502 Paytm-initiation failure, and 201 with the new order. -/
inductive CreateResp where
  | validationError (msg : String)
  | serverError (msg : String)
  | upstreamError (msg : String)
  | created (order : Order)
deriving Repr, DecidableEq

/-- Whether a response is one of the 400 validation rejections. -/
def CreateResp.isValidationError : CreateResp → Bool
  | .validationError _ => true
  | _ => false

/-- `POST /api/orders` (lines 614–717).  Validation order follows the
source: request shape, customer identity fields, shipping fields, payment
method against `['upi', 'paytm', 'cod']`.  Then the pricing calculator
runs (its throw is caught by the handler's `catch`, a 500); the order is
built, appended and saved; the customer is appended when the email is new.
`orderId`, `customerId` and `now` stand for the generated id, the uuid and
the timestamps; `paytmFails` is the outcome of the external
`createPaytmTransaction` call (only reached for `paymentMethod = "paytm"`,
after persistence). -/
def createOrder (products : List Product) (offers : List Offer)
    (req : OrderRequest) (orderId customerId now : String)
    (paytmFails : Bool) (st : StoreState) : CreateResp × StoreState :=
  match req.customer, req.shippingAddress with
  | none, _ => (.validationError "Missing required order information", st)
  | _, none => (.validationError "Missing required order information", st)
  | some customer, some shippingAddress =>
    if req.items.isEmpty then
      (.validationError "Missing required order information", st)
    else if customer.firstName == "" || customer.lastName == ""
        || customer.email == "" || customer.phone == "" then
      (.validationError "Missing required customer information", st)
    else if shippingAddress.line1 == "" || shippingAddress.city == ""
        || shippingAddress.state == "" || shippingAddress.pincode == "" then
      (.validationError "Missing required shipping information", st)
    else if !(["upi", "paytm", "cod"].contains (req.paymentMethod.getD "")) then
      (.validationError "Invalid payment method", st)
    else
      match calculateCartTotals products req.items offers with
      | .error _ => (.serverError "Unable to create order", st)
      | .ok totals =>
        let pm := req.paymentMethod.getD ""
        let newOrder : Order :=
          { id := orderId
            customer_name := (customer.firstName ++ " " ++ customer.lastName).trim
            customer_email := customer.email
            customer_phone := customer.phone
            ship_line1 := shippingAddress.line1
            ship_line2 := shippingAddress.line2.getD ""
            ship_city := shippingAddress.city
            ship_state := shippingAddress.state
            ship_pincode := shippingAddress.pincode
            items := totals.items
            offers_applied := totals.offers.map (fun o => (o.id, o.label, o.type))
            subtotal := totals.subtotal
            discount := totals.discount
            shipping := totals.shipping
            total := totals.total
            payment_method := pm
            payment_status := if pm == "cod" then "cod" else "pending"
            status := "pending"
            notes := req.notes.getD ""
            tracking_number := none
            paytm_transaction_id := none
            paid_amount := none
            created_at := now
            updated_at := now
            paytm_response := none }
        let orders' := st.orders ++ [newOrder]
        let customers' :=
          if (st.customers.find? (fun c => c.email == customer.email)).isSome then
            st.customers
          else
            st.customers ++
              [{ id := customerId
                 name := newOrder.customer_name
                 email := customer.email
                 phone := customer.phone
                 created_at := now }]
        let st' : StoreState := { orders := orders', customers := customers' }
        if pm == "paytm" ∧ paytmFails then
          (.upstreamError "Unable to initiate Paytm payment", st')
        else
          (.created newOrder, st')

/-- `.ok` test on the calculator's per-item result. -/
def isOkE : Except CalcError EnrichedItem → Bool
  | .ok _ => true
  | .error _ => false

/-! ### Concrete fixtures (used by witnesses and counterexamples) -/

/-- A poster priced 300 in size M, 500 in size L. -/
def cProd : Product :=
  { id := "p1", title := "Poster One", price := [("M", 300), ("L", 500)] }

/-- Two units of `cProd` in size M. -/
def cItem : CartItem :=
  { product_id := "p1", size := "M", quantity := some 2, custom_artwork := none }

/-- A line item with an absent quantity field. -/
def cItemNoQty : CartItem :=
  { product_id := "p1", size := "M", quantity := none, custom_artwork := none }

/-- A flat-50 offer requiring subtotal ≥ 500. -/
def cOfferFlat : Offer :=
  { id := "OFF-1", label := "Flat 50", type := "flat", value := some 50
    active := some true, conditions := some { minSubtotal := some 500 } }

/-- A flat-50 offer requiring subtotal ≥ 1000: active but unmet at small
subtotals. -/
def cOfferHigh : Offer :=
  { id := "OFF-2", label := "Flat 50 over 1000", type := "flat"
    value := some 50, active := some true
    conditions := some { minSubtotal := some 1000 } }

/-- A product whose size-M price is 0: the key is present in the price
mapping, but `!product.price['M']` is true in the source. -/
def cProdZero : Product :=
  { id := "p0", title := "Zero Poster", price := [("M", 0)] }

/-- One unit of `cProdZero` in the present-but-zero size M. -/
def cItemZero : CartItem :=
  { product_id := "p0", size := "M", quantity := some 1, custom_artwork := none }

/-- The enrichment of `cItem` against `cProd`. -/
def cEnriched : EnrichedItem :=
  { product_id := "p1", title := "Poster One", size := "M", quantity := 2
    unit_price := 300, line_total := 600, custom_artwork := none }

/-- Expected calculator output for `[cItem]` with `[cOfferFlat]`:
subtotal 600, discount 50, shipping 79, total 629 (the spec's own worked
example). -/
def cTotalsEx : CartTotals :=
  { subtotal := 600, discount := 50, shipping := 79, total := 629
    items := [cEnriched], offers := [cOfferFlat] }

/-- A stored pending order with id `ORD-1`. -/
def cOrderPending : Order :=
  { id := "ORD-1", customer_name := "Asha K", customer_email := "a@b.c"
    customer_phone := "999", ship_line1 := "L1", ship_line2 := ""
    ship_city := "Chennai", ship_state := "TN", ship_pincode := "600001"
    items := [cEnriched], offers_applied := [], subtotal := 600
    discount := 50, shipping := 79, total := 629, payment_method := "paytm"
    payment_status := "pending", status := "pending", notes := ""
    tracking_number := none, paytm_transaction_id := none
    paid_amount := none, created_at := "T0", updated_at := "T0"
    paytm_response := none }

/-- A webhook body reporting `TXN_FAILURE` for `ORD-1`. -/
def cBodyFail : WebhookBody :=
  { orderId := some "ORD-1", resultStatus := some "TXN_FAILURE"
    txnId := some "TXN9", txnAmountValue := some "629" }

/-- A webhook body reporting `TXN_SUCCESS` for `ORD-1`. -/
def cBodySuccess : WebhookBody :=
  { orderId := some "ORD-1", resultStatus := some "TXN_SUCCESS"
    txnId := some "TXN9", txnAmountValue := some "629" }

/-- An admin update payload carrying an `id` field. -/
def cPatchId : OrderPatch :=
  { id := some "HACK", status := none, payment_status := none
    notes := none, tracking_number := none }

/-- An admin update payload without an `id` field. -/
def cPatchStatus : OrderPatch :=
  { id := none, status := some "shipped", payment_status := none
    notes := none, tracking_number := some "TRK1" }

/-- A complete checkout customer object. -/
def cCustomer : CustomerInfo :=
  { firstName := "Asha", lastName := "K", email := "a@b.c", phone := "999" }

/-- A complete checkout shipping object. -/
def cShipping : ShippingInfo :=
  { line1 := "L1", line2 := none, city := "Chennai", state := "TN"
    pincode := "600001" }

/-- A checkout request whose payment method (`razorpay`) is outside the
accepted enum. -/
def cBadReq : OrderRequest :=
  { customer := some cCustomer, shippingAddress := some cShipping
    paymentMethod := some "razorpay", items := [cItem], notes := none }

/-- An empty store. -/
def cState : StoreState := { orders := [], customers := [] }

/-- The enrichment of `cItemNoQty` against `cProd`: quantity defaulted
to 1. -/
def cEnrichedOne : EnrichedItem :=
  { product_id := "p1", title := "Poster One", size := "M", quantity := 1
    unit_price := 300, line_total := 300, custom_artwork := none }

/-- Expected calculator output for `[cItemNoQty]` with no offers:
subtotal 300, shipping 79, total 379. -/
def cTotalsOne : CartTotals :=
  { subtotal := 300, discount := 0, shipping := 79, total := 379
    items := [cEnrichedOne], offers := [] }

/-! ### Helper lemmas -/

/-- Eliminate a successful calculator run into its components. -/
theorem calculateCartTotals_ok_elim {products : List Product}
    {items : List CartItem} {offers : List Offer} {r : CartTotals}
    (h : calculateCartTotals products items offers = .ok r) :
    ∃ sub es, processItems products 0 [] items = .ok (sub, es) ∧
      r.subtotal = sub ∧ r.items = es ∧
      r.offers = offers.filter offerIsActive ∧
      r.discount = computeDiscount sub (offers.filter offerIsActive) ∧
      r.shipping = (if (999 : ℚ) ≤ sub then (0 : ℚ) else 79) ∧
      r.total = max (r.subtotal - r.discount + r.shipping) 0 := by
  unfold calculateCartTotals at h
  cases hp : processItems products 0 [] items with
  | error e => rw [hp] at h; exact absurd h (by simp)
  | ok p =>
    obtain ⟨sub, es⟩ := p
    rw [hp] at h
    simp only [Except.ok.injEq] at h
    subst h
    exact ⟨sub, es, rfl, rfl, rfl, rfl, rfl, rfl, rfl⟩

/-- The item loop is sound: the enriched items extend the accumulator by a
tail in one-to-one correspondence with the processed items, and the
subtotal grows by the tail's line totals. -/
theorem processItems_sound (products : List Product) :
    ∀ (l : List CartItem) (s : ℚ) (acc : List EnrichedItem) (sub : ℚ)
      (es : List EnrichedItem),
      processItems products s acc l = .ok (sub, es) →
      ∃ tail, es = acc ++ tail ∧
        sub = s + (tail.map EnrichedItem.line_total).sum ∧
        List.Forall₂ (fun item e => enrichItem products item = .ok e) l tail := by
  intro l
  induction l with
  | nil =>
    intro s acc sub es h
    unfold processItems at h
    simp only [Except.ok.injEq, Prod.mk.injEq] at h
    obtain ⟨hs, he⟩ := h
    exact ⟨[], by simp [← he], by simp [← hs], List.Forall₂.nil⟩
  | cons item rest ih =>
    intro s acc sub es h
    unfold processItems at h
    split at h
    · exact absurd h (by simp)
    · rename_i e he
      obtain ⟨tail, h1, h2, h3⟩ := ih _ _ _ _ h
      refine ⟨e :: tail, ?_, ?_, List.Forall₂.cons he h3⟩
      · rw [h1]; simp
      · rw [h2]; simp only [List.map_cons, List.sum_cons]; ring

/-- A successfully enriched item's fields: the line total is the unit price
times the normalized quantity. -/
theorem enrichItem_fields {products : List Product} {item : CartItem}
    {e : EnrichedItem} (h : enrichItem products item = .ok e) :
    e.line_total = e.unit_price * e.quantity ∧ e.quantity = normQty item.quantity := by
  unfold enrichItem at h
  split at h
  · exact absurd h (by simp)
  · split at h
    · exact absurd h (by simp)
    · split at h
      · exact absurd h (by simp)
      · simp only [Except.ok.injEq] at h
        subst h
        exact ⟨rfl, rfl⟩

/-- Each element on the right of a `Forall₂` is related to some element on
the left. -/
theorem forall2_exists_left {α β : Type} {R : α → β → Prop} :
    ∀ {l₁ : List α} {l₂ : List β}, List.Forall₂ R l₁ l₂ →
      ∀ b ∈ l₂, ∃ a ∈ l₁, R a b := by
  intro l₁ l₂ h
  induction h with
  | nil => intro b hb; cases hb
  | cons hr _ ih =>
    intro b hb
    cases hb with
    | head => exact ⟨_, List.mem_cons_self _ _, hr⟩
    | tail _ hb' =>
      obtain ⟨a, ha, hr'⟩ := ih b hb'
      exact ⟨a, List.mem_cons_of_mem _ ha, hr'⟩

/-- One offer's loop contribution equals the spec-side contribution when
its threshold is met, and 0 otherwise. -/
theorem offerDiscount_if (s : ℚ) (o : Offer) :
    offerDiscount s o =
      if offerMinSub o ≤ s then specOfferContribution s o else 0 := by
  unfold offerDiscount specOfferContribution
  by_cases hm : offerMinSub o ≤ s
  · by_cases hp : o.type == "percentage"
    · have hp' : o.type = "percentage" := by simpa using hp
      have hf : ¬ o.type == "flat" := by simp [hp']
      simp [hp, hf, hm]
    · by_cases hf : o.type == "flat" <;> simp [hp, hf, hm]
  · simp [hm]

/-- The source's discount loop over the active offers computes the
spec-side additive sum over the qualifying offers. -/
theorem computeDiscount_spec (s : ℚ) :
    ∀ l : List Offer,
      computeDiscount s (l.filter offerIsActive) = specDiscount s l := by
  intro l
  induction l with
  | nil => rfl
  | cons o rest ih =>
    by_cases ha : offerIsActive o <;>
      by_cases hm : offerMinSub o ≤ s <;>
        simp [List.filter_cons, specDiscount, specQualifies, ha, hm,
          computeDiscount, offerDiscount_if, ih]

/-! ### Claim theorems -/

/-- C1: for every list of cart line items and every offers collection on
which the pricing calculator succeeds, the returned total equals
`max(subtotal − discount + shipping, 0)`; in particular the total is never
negative. -/
theorem calculateCartTotals_total_clamped (products : List Product)
    (items : List CartItem) (offers : List Offer) (r : CartTotals)
    (h : calculateCartTotals products items offers = .ok r) :
    r.total = max (r.subtotal - r.discount + r.shipping) 0 ∧ 0 ≤ r.total := by
  obtain ⟨sub, es, -, -, -, -, -, -, htot⟩ := calculateCartTotals_ok_elim h
  exact ⟨htot, htot ▸ le_max_right _ _⟩

/-- Witness for C1: the spec's worked example (subtotal 600, flat offer 50
over 500, shipping 79, total 629). -/
theorem calculateCartTotals_total_clamped_witness :
    cTotalsEx.total = max (cTotalsEx.subtotal - cTotalsEx.discount + cTotalsEx.shipping) 0
      ∧ 0 ≤ cTotalsEx.total :=
  calculateCartTotals_total_clamped [cProd] [cItem] [cOfferFlat] cTotalsEx (by
    simp [calculateCartTotals, processItems, enrichItem, priceFor, normQty,
      computeDiscount, offerDiscount, offerMinSub, offerValue, offerIsActive,
      cProd, cItem, cOfferFlat, cTotalsEx, cEnriched, List.lookup]
    norm_num)

/-- C2: for every cart line item on which the pricing calculator succeeds,
the enriched item's `line_total` equals its resolved `unit_price` times its
`quantity`, and the returned subtotal is the sum of all line totals. -/
theorem calculateCartTotals_line_totals (products : List Product)
    (items : List CartItem) (offers : List Offer) (r : CartTotals)
    (h : calculateCartTotals products items offers = .ok r) :
    (∀ e ∈ r.items, e.line_total = e.unit_price * e.quantity) ∧
    r.subtotal = (r.items.map EnrichedItem.line_total).sum := by
  obtain ⟨sub, es, hp, hsub, hitems, -, -, -, -⟩ := calculateCartTotals_ok_elim h
  obtain ⟨tail, h1, h2, h3⟩ := processItems_sound products items 0 [] sub es hp
  have htail : es = tail := by simpa using h1
  subst htail
  constructor
  · intro e he
    rw [hitems] at he
    obtain ⟨item, -, hei⟩ := forall2_exists_left h3 e he
    exact (enrichItem_fields hei).1
  · rw [hsub, hitems, h2, zero_add]

/-- Witness for C2, at the concrete cart `[cItem]`. -/
theorem calculateCartTotals_line_totals_witness :
    cEnriched.line_total = cEnriched.unit_price * cEnriched.quantity ∧
    cTotalsEx.subtotal = (cTotalsEx.items.map EnrichedItem.line_total).sum := by
  have h := calculateCartTotals_line_totals [cProd] [cItem] [cOfferFlat] cTotalsEx (by
    simp [calculateCartTotals, processItems, enrichItem, priceFor, normQty,
      computeDiscount, offerDiscount, offerMinSub, offerValue, offerIsActive,
      cProd, cItem, cOfferFlat, cTotalsEx, cEnriched, List.lookup]
    norm_num)
  exact ⟨h.1 cEnriched (by simp [cTotalsEx]), h.2⟩

/-- C3: for every offers collection, the calculator's discount is the
additive sum over every active offer whose `minSubtotal` condition is met
by the subtotal — percentage offers contribute `subtotal × value / 100`,
flat offers contribute `value`; qualifying offers stack with no mutual
exclusivity or best-offer selection. -/
theorem calculateCartTotals_discount_stacking (products : List Product)
    (items : List CartItem) (offers : List Offer) (r : CartTotals)
    (h : calculateCartTotals products items offers = .ok r) :
    r.discount = specDiscount r.subtotal offers := by
  obtain ⟨sub, es, -, hsub, -, -, hdisc, -, -⟩ := calculateCartTotals_ok_elim h
  rw [hdisc, hsub, computeDiscount_spec]

/-- Witness for C3: one qualifying flat offer contributes its value. -/
theorem calculateCartTotals_discount_stacking_witness :
    cTotalsEx.discount = specDiscount cTotalsEx.subtotal [cOfferFlat] :=
  calculateCartTotals_discount_stacking [cProd] [cItem] [cOfferFlat] cTotalsEx (by
    simp [calculateCartTotals, processItems, enrichItem, priceFor, normQty,
      computeDiscount, offerDiscount, offerMinSub, offerValue, offerIsActive,
      cProd, cItem, cOfferFlat, cTotalsEx, cEnriched, List.lookup]
    norm_num)

/-- `updateOrder` applied to a collection whose first match is `current`
applies the updater to `current`. -/
theorem updateOrder_of_find (f : Order → Order) :
    ∀ (orders : List Order) (oid : String) (current : Order),
      orders.find? (fun o => o.id == oid) = some current →
      ∃ rest, updateOrder orders oid f = .ok (f current, rest) := by
  intro orders
  induction orders with
  | nil => intro oid current h; simp [List.find?] at h
  | cons o os ih =>
    intro oid current h
    cases ho : (o.id == oid) with
    | true =>
      simp only [List.find?, ho, Option.some.injEq] at h
      subst h
      exact ⟨f o :: os, by simp [updateOrder, ho]⟩
    | false =>
      simp only [List.find?, ho] at h
      obtain ⟨rest, hrest⟩ := ih oid current h
      refine ⟨o :: rest, ?_⟩
      unfold updateOrder
      rw [if_neg (by simp [ho]), hrest]

/-- C4: a Paytm webhook request whose signature fails verification against
the configured merchant secret is rejected with an invalid-signature error
and the stored orders collection is left completely unchanged. -/
theorem paytmWebhook_invalid_signature_no_mutation (merchantKey : String)
    (signature : Option String) (body : WebhookBody) (now : String)
    (orders : List Order) :
    paytmWebhook merchantKey false signature body now orders =
      (.invalidSignature, orders) := by
  unfold paytmWebhook
  split
  · rfl
  · simp

/-- Counterexample for C5 as stated: on a valid-signature `TXN_FAILURE`
webhook for the pending order `ORD-1`, the stored order's
`payment_status` becomes the lowercased result code `"txn_failure"`, not
`"failed"` (only `status` becomes `"failed"`). -/
theorem paytmWebhook_txn_failure_counterexample :
    (paytmWebhook "mkey" true (some "sig") cBodyFail "T1" [cOrderPending]).2.map
        Order.payment_status = ["txn_failure"] ∧
    (paytmWebhook "mkey" true (some "sig") cBodyFail "T1" [cOrderPending]).2.map
        Order.status = ["failed"] ∧
    "txn_failure" ≠ "failed" := by
  refine ⟨?_, ?_, by decide⟩ <;>
    simp [paytmWebhook, updateOrder, webhookUpdater, strTruthy, strOr,
      statusMap, strToLower, cBodyFail, cOrderPending]

/-- C5 (amended): with a valid signature and an existing order, the handler
applies `webhookUpdater`: `TXN_SUCCESS` sets status `confirmed` and
payment_status `paid`; `TXN_FAILURE` sets status `failed` and
payment_status `txn_failure` (the lowercased result code); `PENDING` sets
status and payment_status to `pending`; in all cases the full provider
body is persisted in `paytm_response`. -/
theorem paytmWebhook_result_code_mapping (merchantKey sig oid now : String)
    (body : WebhookBody) (orders : List Order) (current : Order)
    (hkey : merchantKey ≠ "") (hsig : sig ≠ "")
    (hoid : body.orderId = some oid) (hoidne : oid ≠ "")
    (hfind : orders.find? (fun o => o.id == oid) = some current) :
    (paytmWebhook merchantKey true (some sig) body now orders).1 =
      .success (webhookUpdater body now current) ∧
    (webhookUpdater body now current).paytm_response = some body ∧
    (body.resultStatus = some "TXN_SUCCESS" →
      (webhookUpdater body now current).status = "confirmed" ∧
      (webhookUpdater body now current).payment_status = "paid") ∧
    (body.resultStatus = some "TXN_FAILURE" →
      (webhookUpdater body now current).status = "failed" ∧
      (webhookUpdater body now current).payment_status = "txn_failure") ∧
    (body.resultStatus = some "PENDING" →
      (webhookUpdater body now current).status = "pending" ∧
      (webhookUpdater body now current).payment_status = "pending") := by
  obtain ⟨rest, hupd⟩ := updateOrder_of_find (webhookUpdater body now) orders oid current hfind
  refine ⟨?_, rfl, ?_, ?_, ?_⟩
  · simp [paytmWebhook, strTruthy, hsig, hkey, hoid, hoidne, hupd]
  · intro hr
    constructor <;> simp [webhookUpdater, hr, statusMap, strOr, strTruthy]
  · intro hr
    have hlow : strToLower "TXN_FAILURE" = "txn_failure" := by decide
    constructor <;>
      simp [webhookUpdater, hr, statusMap, strOr, strTruthy, hlow]
  · intro hr
    have hlow : strToLower "PENDING" = "pending" := by decide
    constructor <;>
      simp [webhookUpdater, hr, statusMap, strOr, strTruthy, hlow]

/-- Witness for C5 (amended): a `TXN_SUCCESS` webhook on the stored pending
order confirms it and marks it paid. -/
theorem paytmWebhook_result_code_mapping_witness :
    (paytmWebhook "mkey" true (some "sig") cBodySuccess "T1" [cOrderPending]).1 =
      .success (webhookUpdater cBodySuccess "T1" cOrderPending) ∧
    (webhookUpdater cBodySuccess "T1" cOrderPending).status = "confirmed" ∧
    (webhookUpdater cBodySuccess "T1" cOrderPending).payment_status = "paid" := by
  have h := paytmWebhook_result_code_mapping "mkey" "sig" "ORD-1" "T1" cBodySuccess
    [cOrderPending] cOrderPending (by decide) (by decide) rfl (by decide)
    (by simp [List.find?, cOrderPending])
  exact ⟨h.1, (h.2.2.1 rfl).1, (h.2.2.1 rfl).2⟩

/-- Counterexample for C6 as stated: an admin update payload that contains
an `id` field overwrites the order's id — the order created as `ORD-1`
ends up with id `HACK`. -/
theorem putOrderById_id_overwrite_counterexample :
    (putOrderById [cOrderPending] "ORD-1" cPatchId "T2").map (fun r => r.1.id) =
      .ok "HACK" ∧ cOrderPending.id = "ORD-1" ∧ "HACK" ≠ "ORD-1" := by
  refine ⟨?_, rfl, by decide⟩
  simp [putOrderById, updateOrder, mergeOrder, cPatchId, cOrderPending, Except.map]

/-- C6 (amended): the admin order update applies a partial field merge in
which caller-supplied fields overwrite existing ones, the `id` field
included; when the payload carries no `id` field the order's id is
unchanged, and the updated timestamp is stamped. -/
theorem putOrderById_merge_semantics (orders : List Order) (oid now : String)
    (p : OrderPatch) (current : Order)
    (hfind : orders.find? (fun o => o.id == oid) = some current)
    (hid : p.id = none) :
    (∃ rest, putOrderById orders oid p now = .ok (mergeOrder current p now, rest)) ∧
    (mergeOrder current p now).id = current.id ∧
    (∀ s, p.status = some s → (mergeOrder current p now).status = s) ∧
    (∀ s, p.payment_status = some s → (mergeOrder current p now).payment_status = s) ∧
    (∀ s, p.notes = some s → (mergeOrder current p now).notes = s) ∧
    (mergeOrder current p now).updated_at = now := by
  refine ⟨updateOrder_of_find _ orders oid current hfind, ?_, ?_, ?_, ?_, rfl⟩
  · simp [mergeOrder, hid]
  · intro s hs; simp [mergeOrder, hs]
  · intro s hs; simp [mergeOrder, hs]
  · intro s hs; simp [mergeOrder, hs]

/-- Witness for C6 (amended): a status-only payload updates the status and
timestamp and keeps the id. -/
theorem putOrderById_merge_semantics_witness :
    (mergeOrder cOrderPending cPatchStatus "T2").id = cOrderPending.id ∧
    (mergeOrder cOrderPending cPatchStatus "T2").status = "shipped" ∧
    (mergeOrder cOrderPending cPatchStatus "T2").updated_at = "T2" := by
  have h := putOrderById_merge_semantics [cOrderPending] "ORD-1" "T2" cPatchStatus
    cOrderPending (by simp [List.find?, cOrderPending]) rfl
  exact ⟨h.2.1, h.2.2.1 "shipped" rfl, h.2.2.2.2.2⟩

/-- C7: an order-creation request whose payment method is not one of
`upi`, `paytm`, `cod` is rejected with a validation error and no
persistence occurs — the stored orders and customers collections are
unchanged. -/
theorem createOrder_invalid_payment_rejected (products : List Product)
    (offers : List Offer) (req : OrderRequest)
    (orderId customerId now : String) (paytmFails : Bool) (st : StoreState)
    (h : (["upi", "paytm", "cod"].contains (req.paymentMethod.getD "")) = false) :
    ((createOrder products offers req orderId customerId now paytmFails st).1).isValidationError
        = true ∧
    (createOrder products offers req orderId customerId now paytmFails st).2 = st := by
  unfold createOrder
  split
  · exact ⟨rfl, rfl⟩
  · exact ⟨rfl, rfl⟩
  · simp only [h, Bool.not_false]
    split_ifs <;> simp_all [CreateResp.isValidationError]

/-- Witness for C7: a fully populated request with payment method
`razorpay` is rejected and the empty store stays empty. -/
theorem createOrder_invalid_payment_rejected_witness :
    ((createOrder [cProd] [] cBadReq "ORD-X" "CUST-X" "T3" false cState).1).isValidationError
        = true ∧
    (createOrder [cProd] [] cBadReq "ORD-X" "CUST-X" "T3" false cState).2 = cState :=
  createOrder_invalid_payment_rejected [cProd] [] cBadReq "ORD-X" "CUST-X" "T3"
    false cState (by decide)

/-- Counterexample for C8 as stated: for the product `p0` the size key `M`
is present in the price mapping (with price 0), yet the calculator fails
with an invalid-size error, because the source guard is the falsy test
`!product.price[item.size]`. -/
theorem enrichItem_zero_price_counterexample :
    priceFor cProdZero "M" = some 0 ∧
    calculateCartTotals [cProdZero] [cItemZero] [] =
      .error (.invalidSize "p0") := by
  constructor
  · rfl
  · simp [calculateCartTotals, processItems, enrichItem, priceFor,
      cProdZero, cItemZero, List.lookup]

/-- C8 (amended): per line item, the calculator fails with invalid-product
exactly when no product matches the item's product_id; it fails with
invalid-size when the requested size key is absent from the matched
product's price mapping or when that key maps to the (falsy) price 0; when
the key is present with a nonzero price the item is enriched
successfully. -/
theorem enrichItem_failure_modes (products : List Product) (item : CartItem) :
    (products.find? (fun p => p.id == item.product_id) = none →
      enrichItem products item = .error (.invalidProduct item.product_id)) ∧
    (∀ p, products.find? (fun q => q.id == item.product_id) = some p →
      ((priceFor p item.size = none ∨ priceFor p item.size = some 0) →
        enrichItem products item = .error (.invalidSize item.product_id)) ∧
      (∀ v, priceFor p item.size = some v → v ≠ 0 →
        isOkE (enrichItem products item) = true)) := by
  constructor
  · intro hf
    unfold enrichItem
    rw [hf]
  · intro p hf
    constructor
    · intro hp
      unfold enrichItem
      split
      · simp_all
      · rename_i prod hfind2
        rw [hf, Option.some.injEq] at hfind2
        subst hfind2
        cases hp with
        | inl h0 => rw [h0]
        | inr h0 => rw [h0]; simp
    · intro v hv hvne
      unfold enrichItem
      split
      · simp_all
      · rename_i prod hfind2
        rw [hf, Option.some.injEq] at hfind2
        subst hfind2
        rw [hv]
        simp [isOkE, hvne]

/-- Witness for C8 (amended): `p1`/size M resolves at price 300, and an
empty catalog yields invalid-product. -/
theorem enrichItem_failure_modes_witness :
    isOkE (enrichItem [cProd] cItem) = true ∧
    enrichItem [] cItem = .error (.invalidProduct "p1") := by
  have h1 := (enrichItem_failure_modes [cProd] cItem).2 cProd (by rfl)
  have h2 := (enrichItem_failure_modes [] cItem).1 rfl
  exact ⟨h1.2 300 rfl (by norm_num), h2⟩

/-- Counterexample for C9 as stated: with the active offer `OFF-2`
(minSubtotal 1000) and subtotal 600, the offer contributes nothing to the
discount yet appears in the returned offers list. -/
theorem calculateCartTotals_offers_counterexample :
    (calculateCartTotals [cProd] [cItem] [cOfferHigh]).map
        (fun r => (r.discount, r.offers)) = .ok (0, [cOfferHigh]) ∧
    (calculateCartTotals [cProd] [cItem] [cOfferHigh]).map
        (fun r => decide (r.subtotal < offerMinSub cOfferHigh)) = .ok true := by
  constructor <;>
    · simp [calculateCartTotals, processItems, enrichItem, priceFor, normQty,
        computeDiscount, offerDiscount, offerMinSub, offerValue, offerIsActive,
        cProd, cItem, cOfferHigh, List.lookup, Except.map]
      norm_num

/-- C9 (amended): the offers field of a successful calculator result is
exactly the list of active offers (those with `active !== false`), in
input order, regardless of whether their `minSubtotal` condition was
met. -/
theorem calculateCartTotals_offers_active (products : List Product)
    (items : List CartItem) (offers : List Offer) (r : CartTotals)
    (h : calculateCartTotals products items offers = .ok r) :
    r.offers = offers.filter offerIsActive := by
  obtain ⟨sub, es, -, -, -, hoff, -, -, -⟩ := calculateCartTotals_ok_elim h
  exact hoff

/-- Witness for C9 (amended). -/
theorem calculateCartTotals_offers_active_witness :
    cTotalsEx.offers = [cOfferFlat].filter offerIsActive :=
  calculateCartTotals_offers_active [cProd] [cItem] [cOfferFlat] cTotalsEx (by
    simp [calculateCartTotals, processItems, enrichItem, priceFor, normQty,
      computeDiscount, offerDiscount, offerMinSub, offerValue, offerIsActive,
      cProd, cItem, cOfferFlat, cTotalsEx, cEnriched, List.lookup]
    norm_num)

/-- C10: a cart line item whose quantity field is absent, null, or 0 is
priced as quantity 1 — in any successful calculator run, the enriched item
carries quantity 1 and its line total equals the resolved unit price. -/
theorem calculateCartTotals_default_quantity (products : List Product)
    (items : List CartItem) (offers : List Offer) (r : CartTotals)
    (h : calculateCartTotals products items offers = .ok r) :
    List.Forall₂ (fun (item : CartItem) (e : EnrichedItem) =>
      (item.quantity = none ∨ item.quantity = some 0) →
        e.quantity = 1 ∧ e.line_total = e.unit_price) items r.items := by
  obtain ⟨sub, es, hp, -, hitems, -, -, -, -⟩ := calculateCartTotals_ok_elim h
  obtain ⟨tail, h1, -, h3⟩ := processItems_sound products items 0 [] sub es hp
  have htail : es = tail := by simpa using h1
  rw [hitems, htail]
  refine h3.imp ?_
  intro item e he hq
  obtain ⟨hlt, hqty⟩ := enrichItem_fields he
  have hq1 : e.quantity = 1 := by
    rw [hqty]
    cases hq with
    | inl h0 => rw [h0]; rfl
    | inr h0 => rw [h0]; simp [normQty]
  exact ⟨hq1, by rw [hlt, hq1, mul_one]⟩

/-- Witness for C10: pricing a single item with an absent quantity yields
quantity 1 and a line total equal to the unit price. -/
theorem calculateCartTotals_default_quantity_witness :
    cEnrichedOne.quantity = 1 ∧
    cEnrichedOne.line_total = cEnrichedOne.unit_price := by
  have h := calculateCartTotals_default_quantity [cProd] [cItemNoQty] [] cTotalsOne (by
    simp [calculateCartTotals, processItems, enrichItem, priceFor, normQty,
      computeDiscount, offerDiscount, offerMinSub, offerValue, offerIsActive,
      cProd, cItemNoQty, cTotalsOne, cEnrichedOne, List.lookup]
    norm_num)
  cases h with
  | cons hhead _ => exact hhead (Or.inl rfl)

end DineshKapur
